import Mathlib

/-!
Verification of the block-range extraction pipeline in
backend/src/adapters/adapter_utils.py and of the driver loop in
backend/airflow/dags/dag_pgn.py.

Each definition below is a shallow embedding of one function, or of
one aspect of a function, of the Python source; the comment above each
definition names the source function and the lines it embeds.  Machine
floats of the source are modelled as exact rationals, pandas NaN as
Option.none, Python dictionaries as functions from keys to optional
values, and the network, object storage and database as explicit
oracle arguments and state values.

Layout: all definitions first, then helper lemmas, then one theorem
per claim together with its witness or counterexample.
-/

/- ================================================================
   DEFINITIONS
   ================================================================ -/

/- ----------------------------------------------------------------
   Python dictionaries and the transaction/receipt merge
   (fetch_block_transaction_details, adapter_utils.py lines 315-339)
   ---------------------------------------------------------------- -/

/-- A Python dictionary with string keys and string-modelled values:
a key is either absent (none) or present with one value. -/
def PyDict : Type := String → Option String

/-- Assignment d[k] = v on a Python dictionary. -/
def dictSet (d : PyDict) (k v : String) : PyDict :=
  fun x => if x = k then some v else d x

/-- The Python merge expression that builds one dictionary from the
unpacked items of a, then the unpacked items of b: on a key collision
the later operand b wins.  This embeds the source line
merged_dict = dict-union of receipt then tx (adapter_utils.py line 330),
where a is the receipt and b is the transaction. -/
def dictMerge (a b : PyDict) : PyDict :=
  fun k => (b k).orElse (fun _ => a k)

/-- Embeds fetch_block_transaction_details lines 330-334 for a single
transaction: merge the receipt dict with the transaction dict (the
transaction operand comes second, so its fields win on collision),
then re-stamp the hash field with the canonical hex string and the
block_timestamp field from the parent block header. -/
def assembleTransaction (receipt tx : PyDict) (txHashHex blockTs : String) : PyDict :=
  dictSet (dictSet (dictMerge receipt tx) "hash" txHashHex) "block_timestamp" blockTs

/-- Example receipt dictionary used to exercise the merge: it carries
the key gasUsed with value 9 and a status field. -/
def exReceipt : PyDict :=
  fun k => if k = "gasUsed" then some "9" else if k = "status" then some "1" else none

/-- Example transaction dictionary used to exercise the merge: it
carries the key gasUsed with the different value 7. -/
def exTx : PyDict :=
  fun k => if k = "gasUsed" then some "7" else if k = "hash" then some "0xfeed" else none

/- ----------------------------------------------------------------
   Raw cell values and numeric coercion helpers
   (safe_float_conversion lines 14-20, hex_to_int lines 22-26)
   ---------------------------------------------------------------- -/

/-- A raw dataframe cell as the normalizers see it: a Python string,
a Python number (int or float, modelled exactly as a rational), or a
null cell (None / NaN). -/
inductive RawVal where
  | str (s : String)
  | num (q : ℚ)
  | null
deriving DecidableEq, Repr

/-- Value of one hexadecimal digit character, none for other characters. -/
def hexDigitVal (c : Char) : Option ℕ :=
  if '0' ≤ c ∧ c ≤ '9' then some (c.toNat - '0'.toNat)
  else if 'a' ≤ c ∧ c ≤ 'f' then some (c.toNat - 'a'.toNat + 10)
  else if 'A' ≤ c ∧ c ≤ 'F' then some (c.toNat - 'A'.toNat + 10)
  else none

/-- Value of one decimal digit character, none for other characters. -/
def decDigitVal (c : Char) : Option ℕ :=
  if '0' ≤ c ∧ c ≤ '9' then some (c.toNat - '0'.toNat)
  else none

/-- Reads a nonempty run of digits in the given base via the digit
reader f; none on an empty run or a bad digit. -/
def parseDigits (f : Char → Option ℕ) (base : ℕ) (cs : List Char) : Option ℕ :=
  match cs with
  | [] => none
  | _ => cs.foldlM (fun acc c => (f c).map (fun d => base * acc + d)) 0

/-- The Python call int(s, 16) on a string: optional sign, optional 0x
or 0X marker, then nonempty hexadecimal digits; none models the
ValueError raised otherwise. -/
def pyIntBase16 (s : String) : Option ℤ :=
  let core (cs : List Char) : Option ℤ :=
    let body := match cs with
      | '0' :: 'x' :: rest => rest
      | '0' :: 'X' :: rest => rest
      | rest => rest
    (parseDigits hexDigitVal 16 body).map (fun n => (n : ℤ))
  match s.data with
  | '-' :: rest => (core rest).map (fun n => -n)
  | '+' :: rest => core rest
  | cs => core cs

/-- Splits a character list at the occurrences of the dot character,
keeping empty segments, for the decimal-point syntax of float(s). -/
def splitAtDot : List Char → List (List Char)
  | [] => [[]]
  | c :: rest =>
      if c = '.' then [] :: splitAtDot rest
      else
        match splitAtDot rest with
        | [] => [[c]]
        | p :: ps => (c :: p) :: ps

/-- The Python call float(s) on a string, restricted to the plain
decimal forms the pipeline meets: optional sign, digits with an
optional fractional part; none models ValueError. -/
def pyFloatString (s : String) : Option ℚ :=
  let core (cs : List Char) : Option ℚ :=
    match splitAtDot cs with
    | [ip] => (parseDigits decDigitVal 10 ip).map (fun n => (n : ℚ))
    | [ip, fp] =>
        if ip.isEmpty && fp.isEmpty then none
        else
          let ipv := if ip.isEmpty then some 0 else parseDigits decDigitVal 10 ip
          let fpv := if fp.isEmpty then some 0 else parseDigits decDigitVal 10 fp
          match ipv, fpv with
          | some i, some f => some ((i : ℚ) + (f : ℚ) / (10 : ℚ) ^ fp.length)
          | _, _ => none
    | _ => none
  match s.data with
  | '-' :: rest => (core rest).map Neg.neg
  | '+' :: rest => core rest
  | cs => core cs

/-- Embeds hex_to_int (adapter_utils.py lines 22-26): int(hex_str, 16),
returning None on ValueError or TypeError; a numeric or null argument
raises TypeError in Python, hence none. -/
def hex_to_int (v : RawVal) : Option ℤ :=
  match v with
  | .str s => pyIntBase16 s
  | .num _ => none
  | .null => none

/-- The string marker that distinguishes hexadecimal payloads. -/
def hexMarker : String := "0x"

/-- Embeds safe_float_conversion (adapter_utils.py lines 14-20): a
string starting with 0x is parsed as hex then cast to float, any other
string as a decimal float, a number is passed through; NaN (here none)
on ValueError or TypeError. -/
def safe_float_conversion (v : RawVal) : Option ℚ :=
  match v with
  | .str s =>
      if s.startsWith hexMarker then (pyIntBase16 s).map (fun n => (n : ℚ))
      else pyFloatString s
  | .num q => some q
  | .null => none

/-- The pandas call to_numeric(x, coercing errors) on one cell: a
number passes through, a string is parsed as a decimal, anything else
becomes NaN (none). -/
def pd_to_numeric (v : RawVal) : Option ℚ :=
  match v with
  | .num q => some q
  | .str s => pyFloatString s
  | .null => none

/-- The pandas call fillna(d) on one cell with a string default d:
a null cell becomes the string d, other cells pass through. -/
def fillna_str (d : String) (v : RawVal) : RawVal :=
  match v with
  | .null => .str d
  | x => x

/- ----------------------------------------------------------------
   The default-variant fee computation
   (prep_dataframe, adapter_utils.py lines 106-123)
   ---------------------------------------------------------------- -/

/-- Embeds the tx_fee computation of prep_dataframe (adapter_utils.py
lines 106-123) on one row: gas_price and gas_used are numerically
coerced, l1_gas_price goes through safe_float_conversion and fillna 0,
l1_fee_scalar through fillna with the string 0 and numeric coercion,
l1_gas_used through hex_to_int and fillna 0, and then
tx_fee = (gas_price * gas_used + l1_gas_used * l1_gas_price * l1_fee_scalar) / 1e18.
The result is none when a NaN reaches the formula. -/
def tx_fee_default (gasPrice gasUsed l1GasUsedRaw l1GasPriceRaw l1FeeScalarRaw : RawVal) :
    Option ℚ := do
  let gp ← pd_to_numeric gasPrice
  let gu ← pd_to_numeric gasUsed
  let l1gp : ℚ := (safe_float_conversion l1GasPriceRaw).getD 0
  let fs ← pd_to_numeric (fillna_str "0" l1FeeScalarRaw)
  let l1gu : ℚ := ((hex_to_int l1GasUsedRaw).map (fun n => (n : ℚ))).getD 0
  pure ((gp * gu + l1gu * l1gp * fs) / 10 ^ 18)

/- ----------------------------------------------------------------
   The empty_input derivation, one lambda per normalizer variant
   (adapter_utils.py lines 129, 190, 248)
   ---------------------------------------------------------------- -/

/-- Embeds the lambda on line 129 of prep_dataframe: True if the input
payload equals 0x or the empty string, else False. -/
def empty_input_default (x : String) : Bool :=
  if x = "0x" ∨ x = "" then true else false

/-- Embeds the identical lambda on line 190 of prep_dataframe_scroll. -/
def empty_input_scroll (x : String) : Bool :=
  if x = "0x" ∨ x = "" then true else false

/-- Embeds the identical lambda on line 248 of prep_dataframe_linea. -/
def empty_input_linea (x : String) : Bool :=
  if x = "0x" ∨ x = "" then true else false

/- ----------------------------------------------------------------
   Deduplication before the upsert
   (fetch_and_process_range, adapter_utils.py lines 422-424)
   ---------------------------------------------------------------- -/

/-- A normalized row reduced to what deduplication inspects: the
tx_hash key column and a number standing for the remaining columns. -/
structure NormRow where
  tx_hash : String
  payload : ℕ
deriving DecidableEq, Repr

/-- Traversal of the rows keeping each row whose tx_hash was not seen
before: the first occurrence of every key survives. -/
def dropDupSeen (seen : List String) : List NormRow → List NormRow
  | [] => []
  | r :: rs =>
      if r.tx_hash ∈ seen then dropDupSeen seen rs
      else r :: dropDupSeen (r.tx_hash :: seen) rs

/-- Embeds df_prep.drop_duplicates on the subset tx_hash
(adapter_utils.py line 422): pandas keeps the first occurrence of each
duplicated key by default. -/
def drop_duplicates_first (rows : List NormRow) : List NormRow :=
  dropDupSeen [] rows

/-- Row with the key 0xaa and payload 1, first of a duplicate pair. -/
def rowA : NormRow := ⟨"0xaa", 1⟩

/-- Second row with the same key as rowA but a different payload. -/
def rowB : NormRow := ⟨"0xaa", 2⟩

/- ----------------------------------------------------------------
   The retry policy
   (handle_retry_exception lines 280-296, fetch_and_process_range
   lines 401-437)
   ---------------------------------------------------------------- -/

/-- Outcome of one call to handle_retry_exception: either a retry with
the slept wait time returned to the caller, or the terminal
MaxWaitTimeExceededException. -/
inductive RetryStep where
  | retry (wait : ℚ)
  | exhausted
deriving DecidableEq, Repr

/-- Embeds handle_retry_exception (adapter_utils.py lines 280-296):
wait_time = min(300, 2 * base_wait_time); raise when wait_time reaches
300; otherwise add the jitter drawn from uniform(0, wait_time * 0.1),
sleep and return the sum.  The jitter draw is an explicit argument. -/
def handle_retry_exception (base_wait_time jitter : ℚ) : RetryStep :=
  let max_wait_time : ℚ := 300
  let wait_time := min max_wait_time (2 * base_wait_time)
  if max_wait_time ≤ wait_time then .exhausted
  else .retry (wait_time + jitter)

/-- Iterates handle_retry_exception over a list of jitter draws, one
per consecutive failure, from a starting base wait: some of the final
base wait if every step retries, none as soon as a step exhausts. -/
def retryTrace : List ℚ → ℚ → Option ℚ
  | [], b => some b
  | j :: js, b =>
      match handle_retry_exception b j with
      | .exhausted => none
      | .retry w => retryTrace js w

/-- States of the retry policy reachable from a base wait in a number
of consecutive failures, each step taking a jitter draw inside the
interval uniform(0, wait * 0.1) actually used by the source. -/
inductive RetryReaches : ℚ → ℕ → ℚ → Prop where
  | refl (b : ℚ) : RetryReaches b 0 b
  | step (b j w b' : ℚ) (n : ℕ) (hj0 : 0 ≤ j) (hj1 : 10 * j ≤ min 300 (2 * b))
      (hs : handle_retry_exception b j = .retry w)
      (ht : RetryReaches w n b') : RetryReaches b (n + 1) b'

/- ----------------------------------------------------------------
   The driver loop
   (run_nader_super, dag_pgn.py lines 51-67)
   ---------------------------------------------------------------- -/

/-- Observable actions of the driver loop in run_nader_super: an
extraction attempt with the current thread count, and the fixed
cooldown sleep taken after a degradation. -/
inductive DriverEvent where
  | attempt (threads : ℕ)
  | cooldown (seconds : ℕ)
deriving DecidableEq, Repr

/-- Embeds the while loop of run_nader_super (dag_pgn.py lines 51-67),
with the outcome of each extract_raw call supplied as a list of
booleans (true = the call returns, false = it raises
MaxWaitTimeExceededException).  Result: the emitted events paired with
true for a normal return and false for a fatal re-raise; none when the
supplied outcome list is shorter than the run.  On a failure with more
than one thread the loop decrements the thread count, sleeps 300
seconds and retries; at one thread it re-raises. -/
def run_nader_super_loop : ℕ → List Bool → Option (List DriverEvent × Bool)
  | threads, outcomes =>
    if threads = 0 then some ([], true)
    else
      match outcomes with
      | [] => none
      | ok :: rest =>
        if ok then some ([.attempt threads], true)
        else if 1 < threads then
          (run_nader_super_loop (threads - 1) rest).map
            (fun p => (.attempt threads :: .cooldown 300 :: p.1, p.2))
        else some ([.attempt threads], false)

/- ----------------------------------------------------------------
   Column presence in the normalizers
   (prep_dataframe lines 74-103, prep_dataframe_scroll lines 157-178)
   ---------------------------------------------------------------- -/

/-- The three L1 fee columns that prep_dataframe fills with the
integer 0 when absent (adapter_utils.py lines 76-79). -/
def default_required_l1_columns : List String :=
  ["l1GasUsed", "l1GasPrice", "l1FeeScalar"]

/-- Keys of the column_mapping of prep_dataframe (lines 82-97): the
projection df[keys] selects exactly these columns. -/
def default_column_mapping_keys : List String :=
  ["blockNumber", "hash", "from", "to", "gasPrice", "gas", "gasUsed", "value",
   "status", "input", "l1GasUsed", "l1GasPrice", "l1FeeScalar", "block_timestamp"]

/-- Keys of the column_mapping of prep_dataframe_scroll (lines 159-172). -/
def scroll_column_mapping_keys : List String :=
  ["blockNumber", "hash", "from", "to", "gasPrice", "gas", "gasUsed", "value",
   "status", "input", "l1Fee", "block_timestamp"]

/-- Embeds the required-columns loop of prep_dataframe (lines 76-79) at
the level of the column set: each listed column absent from the frame
is appended (its cells become the integer 0). -/
def ensure_columns (required cols : List String) : List String :=
  required.foldl (fun acc c => if c ∈ acc then acc else acc ++ [c]) cols

/-- The pandas projection df[wanted] at the level of the column set:
ok with the selected columns when each wanted column is present,
otherwise the KeyError that pandas raises. -/
def select_columns (wanted cols : List String) : Except String (List String) :=
  if wanted.all (fun c => c ∈ cols) then .ok wanted else .error "KeyError"

/-- Column-set behaviour of prep_dataframe (lines 74-103): default the
three L1 columns, then project to the mapping keys. -/
def prep_dataframe_columns (cols : List String) : Except String (List String) :=
  select_columns default_column_mapping_keys
    (ensure_columns default_required_l1_columns cols)

/-- Column-set behaviour of prep_dataframe_scroll (lines 157-178): no
column is defaulted; the frame is projected to the mapping keys
directly. -/
def prep_dataframe_scroll_columns (cols : List String) : Except String (List String) :=
  select_columns scroll_column_mapping_keys cols

/-- Input columns of a default-variant frame that carries every mapped
column except status. -/
def cols_without_status : List String :=
  ["blockNumber", "hash", "from", "to", "gasPrice", "gas", "gasUsed", "value",
   "input", "l1GasUsed", "l1GasPrice", "l1FeeScalar", "block_timestamp"]

/-- Input columns of a scroll frame that carries every mapped column
except l1Fee. -/
def cols_without_l1Fee : List String :=
  ["blockNumber", "hash", "from", "to", "gasPrice", "gas", "gasUsed", "value",
   "status", "input", "block_timestamp"]

/- ----------------------------------------------------------------
   The archive writer
   (save_data_for_range lines 375-399, s3_file_exists lines 60-71)
   ---------------------------------------------------------------- -/

/-- Object storage reduced to the set of keys present in the bucket. -/
structure S3State where
  objects : List String
deriving DecidableEq, Repr

/-- The deterministic object key of the raw archive for a range
(save_data_for_range lines 385-388). -/
def archive_file_key (chain : String) (block_start block_end : ℕ) : String :=
  chain ++ "/" ++ chain ++ "_tx_" ++ toString block_start ++ "_"
    ++ toString block_end ++ ".parquet"

/-- Embeds s3_file_exists (lines 60-71): the head-object call reports
whether the key is present in the bucket. -/
def s3_file_exists (s3 : S3State) (file_key : String) : Bool :=
  s3.objects.contains file_key

/-- The df.to_parquet upload of save_data_for_range (line 392), with
an explicit oracle saying whether the object actually landed in the
bucket: the write call itself does not report failure. -/
def to_parquet_write (s3 : S3State) (writeOk : Bool) (file_key : String) : S3State :=
  if writeOk then ⟨file_key :: s3.objects⟩ else s3

/-- Embeds save_data_for_range (lines 375-399): serialize and upload
the table at the deterministic key, then check the existence of that
same key; return normally only when the check passes, otherwise raise. -/
def save_data_for_range (s3 : S3State) (writeOk : Bool) (chain : String)
    (block_start block_end : ℕ) : Except String S3State :=
  let file_key := archive_file_key chain block_start block_end
  let s3' := to_parquet_write s3 writeOk file_key
  if s3_file_exists s3' file_key then .ok s3'
  else .error ("File " ++ file_key ++ " not uploaded. Stopping execution.")

/- ----------------------------------------------------------------
   One attempt of the range processor
   (fetch_and_process_range lines 401-437, fetch_data_for_range
   lines 348-373)
   ---------------------------------------------------------------- -/

/-- The stages of fetch_and_process_range, in source order. -/
inductive StageEvent where
  | fetchStage
  | archiveStage
  | normalizeStage
  | upsertStage
deriving DecidableEq, Repr

/-- The destination store reduced to the list of upsert calls it has
received, each carrying the table name and the deduplicated rows. -/
structure DbState where
  upserts : List (String × List NormRow)
deriving DecidableEq, Repr

/-- Result of one attempt of the loop body of fetch_and_process_range:
a normal return after the upsert, the early return on an empty fetch,
or an exception reaching the retry handler. -/
inductive AttemptOutcome where
  | completed
  | skippedEmpty
  | raised
deriving DecidableEq, Repr

/-- Environment oracles of one attempt: whether the fetch raises, the
rows it returns otherwise, whether the parquet upload lands, and
whether the normalize and upsert calls raise. -/
structure AttemptEnv where
  fetchRaises : Bool
  fetchedRows : List NormRow
  writeOk : Bool
  normalizeRaises : Bool
  upsertRaises : Bool

/-- Embeds the empty-frame handling of fetch_data_for_range (lines
362-370): a fetch that finds no transactions returns None instead of
a frame. -/
def fetch_data_result (rows : List NormRow) : Option (List NormRow) :=
  if rows.isEmpty then none else some rows

/-- Embeds one attempt of the try body of fetch_and_process_range
(lines 404-432): fetch; return early when the frame is None or empty;
archive with post-write verification; normalize; deduplicate; upsert.
Returns the stages completed in order, the outcome, and the resulting
object-storage and destination-store states. -/
def run_attempt (env : AttemptEnv) (s3 : S3State) (db : DbState)
    (chain table : String) (block_start block_end : ℕ) :
    List StageEvent × AttemptOutcome × S3State × DbState :=
  if env.fetchRaises then ([], .raised, s3, db)
  else
    match fetch_data_result env.fetchedRows with
    | none => ([.fetchStage], .skippedEmpty, s3, db)
    | some rows =>
      match save_data_for_range s3 env.writeOk chain block_start block_end with
      | .error _ =>
          ([.fetchStage], .raised,
            to_parquet_write s3 env.writeOk (archive_file_key chain block_start block_end), db)
      | .ok s3ok =>
          if env.normalizeRaises then ([.fetchStage, .archiveStage], .raised, s3ok, db)
          else if env.upsertRaises then
            ([.fetchStage, .archiveStage, .normalizeStage], .raised, s3ok, db)
          else
            ([.fetchStage, .archiveStage, .normalizeStage, .upsertStage], .completed, s3ok,
              ⟨db.upserts ++ [(table, drop_duplicates_first rows)]⟩)

/-- The initial segments of the stage order fetch, archive, normalize,
upsert: a trace equal to one of these runs the stages strictly in that
order. -/
def stage_order_segments : List (List StageEvent) :=
  [[], [.fetchStage], [.fetchStage, .archiveStage],
   [.fetchStage, .archiveStage, .normalizeStage],
   [.fetchStage, .archiveStage, .normalizeStage, .upsertStage]]

/-- An attempt environment in which fetch succeeds with one row, the
upload lands, normalize succeeds and the upsert raises. -/
def envUpsertFails : AttemptEnv :=
  ⟨false, [rowA], true, false, true⟩

/-- An attempt environment in which fetch succeeds and finds zero
transactions. -/
def envEmptyFetch : AttemptEnv :=
  ⟨false, [], true, false, false⟩

/- ================================================================
   HELPER LEMMAS
   ================================================================ -/

theorem find?_dropDupSeen (h : String) :
    ∀ (rows : List NormRow) (seen : List String), h ∉ seen →
      (dropDupSeen seen rows).find? (fun r => r.tx_hash == h)
        = rows.find? (fun r => r.tx_hash == h)
  | [], seen, _ => rfl
  | r :: rs, seen, hh => by
    by_cases hr : r.tx_hash ∈ seen
    · have hne : (r.tx_hash == h) = false := by
        rw [beq_eq_false_iff_ne]
        intro he; exact hh (he ▸ hr)
      simp only [dropDupSeen, if_pos hr, List.find?_cons, hne]
      exact find?_dropDupSeen h rs seen hh
    · by_cases he : r.tx_hash = h
      · have htrue : (r.tx_hash == h) = true := beq_iff_eq.mpr he
        simp only [dropDupSeen, if_neg hr, List.find?_cons, htrue]
      · have hne : (r.tx_hash == h) = false := by simp [he]
        have hh' : h ∉ r.tx_hash :: seen := by
          intro hc
          rcases List.mem_cons.mp hc with h1 | h2
          · exact he h1.symm
          · exact hh h2
        simp only [dropDupSeen, if_neg hr, List.find?_cons, hne]
        exact find?_dropDupSeen h rs (r.tx_hash :: seen) hh'

theorem nodup_dropDupSeen :
    ∀ (rows : List NormRow) (seen : List String),
      ((dropDupSeen seen rows).map (fun r => r.tx_hash)).Nodup
      ∧ ∀ x ∈ (dropDupSeen seen rows).map (fun r => r.tx_hash), x ∉ seen
  | [], seen => by simp [dropDupSeen]
  | r :: rs, seen => by
    by_cases hr : r.tx_hash ∈ seen
    · simpa [dropDupSeen, if_pos hr] using nodup_dropDupSeen rs seen
    · have ih := nodup_dropDupSeen rs (r.tx_hash :: seen)
      constructor
      · simp only [dropDupSeen, if_neg hr, List.map_cons, List.nodup_cons]
        refine ⟨fun hc => ?_, ih.1⟩
        exact (ih.2 _ hc) (List.mem_cons_self _ _)
      · intro x hx
        simp only [dropDupSeen, if_neg hr, List.map_cons, List.mem_cons] at hx
        rcases hx with h1 | h2
        · exact h1 ▸ hr
        · intro hs; exact (ih.2 x h2) (List.mem_cons_of_mem _ hs)

theorem handle_retry_retry_elim (b j w : ℚ)
    (hs : handle_retry_exception b j = .retry w) :
    2 * b < 300 ∧ w = 2 * b + j := by
  unfold handle_retry_exception at hs
  simp only at hs
  split at hs
  · exact absurd hs (by simp)
  · rename_i hlt
    push_neg at hlt
    have hmin : min (300 : ℚ) (2 * b) = 2 * b := by
      rcases min_cases (300 : ℚ) (2 * b) with ⟨h1, h2⟩ | ⟨h1, h2⟩
      · exact absurd (h1 ▸ hlt) (by simp)
      · exact h1
    rw [hmin] at hs hlt
    refine ⟨hlt, ?_⟩
    injection hs with h
    exact h.symm

theorem retryReaches_lower (b : ℚ) (n : ℕ) (b' : ℚ)
    (h : RetryReaches b n b') (hb : 0 ≤ b) : 2 ^ n * b ≤ b' := by
  induction h with
  | refl c => simp
  | step c j w c' m hj0 hj1 hs ht ih =>
      rcases handle_retry_retry_elim c j w hs with ⟨_, hw⟩
      have hcw : 2 * c ≤ w := by rw [hw]; linarith
      have hw0 : 0 ≤ w := le_trans (by positivity) hcw
      have ih' := ih hw0
      calc 2 ^ (m + 1) * c = 2 ^ m * (2 * c) := by ring
        _ ≤ 2 ^ m * w := by
            exact mul_le_mul_of_nonneg_left hcw (by positivity)
        _ ≤ c' := ih'

theorem retryReaches_upper (b : ℚ) (n : ℕ) (b' : ℚ)
    (h : RetryReaches b n b') (hb : 0 ≤ b) : b' ≤ (11 / 5) ^ n * b := by
  induction h with
  | refl c => simp
  | step c j w c' m hj0 hj1 hs ht ih =>
      rcases handle_retry_retry_elim c j w hs with ⟨hlt, hw⟩
      have hmin : min (300 : ℚ) (2 * c) = 2 * c := min_eq_right (le_of_lt hlt)
      rw [hmin] at hj1
      have hwle : w ≤ (11 / 5) * c := by rw [hw]; linarith
      have hcw : 2 * c ≤ w := by rw [hw]; linarith
      have hw0 : 0 ≤ w := le_trans (by positivity) hcw
      have ih' := ih hw0
      calc c' ≤ (11 / 5) ^ m * w := ih'
        _ ≤ (11 / 5) ^ m * ((11 / 5) * c) :=
            mul_le_mul_of_nonneg_left hwle (by positivity)
        _ = (11 / 5) ^ (m + 1) * c := by ring

theorem handle_retry_exhausted_iff (b j : ℚ) :
    handle_retry_exception b j = .exhausted ↔ 150 ≤ b := by
  unfold handle_retry_exception
  simp only
  split
  · rename_i hcond
    have h2 : (300 : ℚ) ≤ 2 * b := (le_min_iff.mp hcond).2
    simp only [true_iff]
    linarith
  · rename_i hcond
    simp only [reduceCtorEq, false_iff, not_le]
    by_contra hc
    push_neg at hc
    exact hcond (le_min_iff.mpr ⟨le_refl _, by linarith⟩)

theorem handle_retry_eval_retry (b j : ℚ) (hb : 2 * b < 300) :
    handle_retry_exception b j = .retry (2 * b + j) := by
  unfold handle_retry_exception
  simp only
  rw [min_eq_right (le_of_lt hb), if_neg (not_le.mpr hb)]

theorem ensure_columns_mem_of_mem :
    ∀ (req acc : List String) (x : String), x ∈ acc → x ∈ ensure_columns req acc
  | [], _, _, hx => hx
  | r :: rs, acc, x, hx => by
    unfold ensure_columns
    simp only [List.foldl_cons]
    by_cases hr : r ∈ acc
    · rw [if_pos hr]
      exact ensure_columns_mem_of_mem rs acc x hx
    · rw [if_neg hr]
      exact ensure_columns_mem_of_mem rs (acc ++ [r]) x (List.mem_append_left _ hx)

theorem ensure_columns_mem_of_req :
    ∀ (req acc : List String) (x : String), x ∈ req → x ∈ ensure_columns req acc
  | [], _, _, hx => absurd hx (List.not_mem_nil _)
  | r :: rs, acc, x, hx => by
    unfold ensure_columns
    simp only [List.foldl_cons]
    rcases List.mem_cons.mp hx with h1 | h2
    · subst h1
      by_cases hr : x ∈ acc
      · rw [if_pos hr]
        exact ensure_columns_mem_of_mem rs acc x hr
      · rw [if_neg hr]
        exact ensure_columns_mem_of_mem rs (acc ++ [x]) x
          (List.mem_append_right _ (List.mem_singleton.mpr rfl))
    · by_cases hr : r ∈ acc
      · rw [if_pos hr]
        exact ensure_columns_mem_of_req rs acc x h2
      · rw [if_neg hr]
        exact ensure_columns_mem_of_req rs (acc ++ [r]) x h2

/- ================================================================
   CLAIM THEOREMS
   ================================================================ -/

/-- Claim C1 (counterexample): the key gasUsed occurs in both the
example receipt (value 9) and the example transaction (value 7), yet
the record assembled by the block fetcher carries the transaction
value 7, not the receipt value 9 — receipt fields do not take
precedence on collision, refuting the claim as stated. -/
theorem assemble_receipt_precedence_cex :
    exReceipt "gasUsed" = some "9" ∧ exTx "gasUsed" = some "7" ∧
    assembleTransaction exReceipt exTx "0xfeed" "1693526400" "gasUsed" = some "7" ∧
    assembleTransaction exReceipt exTx "0xfeed" "1693526400" "gasUsed" ≠ some "9" := by
  refine ⟨rfl, rfl, rfl, ?_⟩
  decide

/-- Claim C1 (amended): in the record assembled by the block fetcher,
a key occurring in both the transaction object and its receipt (other
than the re-stamped hash and block_timestamp fields) carries the
transaction value: transaction fields take precedence on collision,
because the transaction dictionary is unpacked second in the merge. -/
theorem assemble_tx_precedence (receipt tx : PyDict) (k : String)
    (hHash : k ≠ "hash") (hTs : k ≠ "block_timestamp")
    (hInReceipt : (receipt k).isSome) (hInTx : (tx k).isSome)
    (txHashHex blockTs : String) :
    assembleTransaction receipt tx txHashHex blockTs k = tx k := by
  unfold assembleTransaction dictSet dictMerge
  simp only [if_neg hTs, if_neg hHash]
  cases h : tx k with
  | none => rw [h] at hInTx; simp at hInTx
  | some v => simp [Option.orElse]

/-- Claim C1 (witness): the amended precedence theorem applied at the
example receipt and transaction on the key gasUsed. -/
theorem assemble_tx_precedence_witness :
    assembleTransaction exReceipt exTx "0xfeed" "1693526400" "gasUsed" = exTx "gasUsed" :=
  assemble_tx_precedence exReceipt exTx "gasUsed" (by decide) (by decide)
    (by decide) (by decide) "0xfeed" "1693526400"

/-- Claim C2 (counterexample): a batch with two rows sharing the key
0xaa is deduplicated to the first row, not the last: the kept row is
rowA, the first occurrence, refuting last-write-wins as stated. -/
theorem dedup_last_wins_cex :
    drop_duplicates_first [rowA, rowB] = [rowA]
    ∧ rowA ≠ rowB
    ∧ drop_duplicates_first [rowA, rowB] ≠ [rowB] := by
  refine ⟨rfl, by decide, by decide⟩

/-- Claim C2 (amended): for every normalized batch, the deduplication
step before the upsert keeps exactly one row per tx_hash, and that row
is the first occurrence in iteration order (first-write-wins within
the batch): the deduplicated key column has no duplicates, and the
unique row kept for each key is the first row of the batch carrying
that key. -/
theorem dedup_keeps_first (rows : List NormRow) :
    ((drop_duplicates_first rows).map (fun r => r.tx_hash)).Nodup
    ∧ ∀ h : String,
        (drop_duplicates_first rows).find? (fun r => r.tx_hash == h)
          = rows.find? (fun r => r.tx_hash == h) := by
  refine ⟨(nodup_dropDupSeen rows []).1, fun h => ?_⟩
  exact find?_dropDupSeen h rows [] (List.not_mem_nil h)

/-- Claim C3 (counterexample): with every jitter draw equal to zero
(a value uniform(0, w) can produce), the retry policy survives only
five consecutive failures, reaching base wait 160, and the sixth
failure computes min(300, 320) = 300 and raises the terminal
exhaustion — so seven consecutive failures can never be reached,
refuting the claimed count of seven. -/
theorem retry_seven_failures_cex :
    retryTrace [0, 0, 0, 0, 0] 5 = some 160
    ∧ retryTrace [0, 0, 0, 0, 0, 0] 5 = none := by
  have s1 : handle_retry_exception 5 0 = .retry 10 := by
    have := handle_retry_eval_retry 5 0 (by norm_num); rw [this]; norm_num
  have s2 : handle_retry_exception 10 0 = .retry 20 := by
    have := handle_retry_eval_retry 10 0 (by norm_num); rw [this]; norm_num
  have s3 : handle_retry_exception 20 0 = .retry 40 := by
    have := handle_retry_eval_retry 20 0 (by norm_num); rw [this]; norm_num
  have s4 : handle_retry_exception 40 0 = .retry 80 := by
    have := handle_retry_eval_retry 40 0 (by norm_num); rw [this]; norm_num
  have s5 : handle_retry_exception 80 0 = .retry 160 := by
    have := handle_retry_eval_retry 80 0 (by norm_num); rw [this]; norm_num
  have s6 : handle_retry_exception 160 0 = .exhausted :=
    (handle_retry_exhausted_iff 160 0).mpr (by norm_num)
  have hcons : ∀ (j : ℚ) (js : List ℚ) (b : ℚ),
      retryTrace (j :: js) b = (match handle_retry_exception b j with
        | RetryStep.exhausted => none
        | RetryStep.retry w => retryTrace js w) := fun _ _ _ => rfl
  have step : ∀ (j : ℚ) (js : List ℚ) (b w : ℚ), handle_retry_exception b j = .retry w →
      retryTrace (j :: js) b = retryTrace js w := by
    intro j js b w h
    rw [hcons, h]
  have stop : ∀ (j : ℚ) (js : List ℚ) (b : ℚ), handle_retry_exception b j = .exhausted →
      retryTrace (j :: js) b = none := by
    intro j js b h
    rw [hcons, h]
  constructor
  · rw [step 0 _ 5 10 s1, step 0 _ 10 20 s2, step 0 _ 20 40 s3, step 0 _ 40 80 s4,
      step 0 _ 80 160 s5]
    rfl
  · rw [step 0 _ 5 10 s1, step 0 _ 10 20 s2, step 0 _ 20 40 s3, step 0 _ 40 80 s4,
      step 0 _ 80 160 s5, stop 0 _ 160 s6]

/-- Claim C3 (amended): for the retry policy of
handle_retry_exception, with the jitter draw j inside the interval
uniform(0, wait * 0.1) used by the source: the policy raises the
terminal exhaustion exactly when the doubled-and-capped wait
min(300, 2 * wait) reaches 300, that is exactly when the incoming wait
is at least 150; a non-exhausting call returns the doubled wait plus
the jitter, which is at least the doubled wait and at most 10 percent
above it; starting from base wait 5, every state reachable after five
consecutive failures is at least 160, so the sixth consecutive failure
(not the seventh) reports exhaustion; and no state reachable in at
most four failures can exhaust, since it stays below 150. -/
theorem retry_policy_amended (b j : ℚ) (hj0 : 0 ≤ j) (hj1 : 10 * j ≤ min 300 (2 * b)) :
    (handle_retry_exception b j = .exhausted ↔ 150 ≤ b)
    ∧ (b < 150 → handle_retry_exception b j = .retry (2 * b + j)
        ∧ 2 * b ≤ 2 * b + j ∧ 2 * b + j ≤ (11 / 10) * (2 * b))
    ∧ (∀ b5 : ℚ, RetryReaches 5 5 b5 → 160 ≤ b5
        ∧ ∀ j6 : ℚ, handle_retry_exception b5 j6 = .exhausted)
    ∧ (∀ (n : ℕ) (bn : ℚ), n ≤ 4 → RetryReaches 5 n bn → bn < 150) := by
  refine ⟨handle_retry_exhausted_iff b j, ?_, ?_, ?_⟩
  · intro hb
    have hmin : min (300 : ℚ) (2 * b) = 2 * b := min_eq_right (by linarith)
    rw [hmin] at hj1
    constructor
    · unfold handle_retry_exception
      simp only
      rw [if_neg]
      · rw [hmin]
      · rw [hmin]; push_neg; linarith
    · constructor <;> linarith
  · intro b5 hreach
    have h160 : (160 : ℚ) ≤ b5 := by
      have := retryReaches_lower 5 5 b5 hreach (by norm_num)
      norm_num at this
      linarith
    exact ⟨h160, fun j6 => (handle_retry_exhausted_iff b5 j6).mpr (by linarith)⟩
  · intro n bn hn hreach
    have hup := retryReaches_upper 5 n bn hreach (by norm_num)
    have hpow : ((11 : ℚ) / 5) ^ n ≤ (11 / 5) ^ 4 :=
      pow_le_pow_right₀ (by norm_num) hn
    have : bn ≤ (11 / 5) ^ 4 * 5 := by
      calc bn ≤ (11 / 5) ^ n * 5 := hup
        _ ≤ (11 / 5) ^ 4 * 5 := by
            exact mul_le_mul_of_nonneg_right hpow (by norm_num)
    norm_num at this
    linarith

/-- Claim C3 (witness): the amended retry theorem applied at the
incoming wait 160 with jitter 0. -/
theorem retry_policy_amended_witness :
    (handle_retry_exception 160 0 = .exhausted ↔ (150 : ℚ) ≤ 160)
    ∧ ((160 : ℚ) < 150 → handle_retry_exception 160 0 = .retry (2 * 160 + 0)
        ∧ 2 * (160 : ℚ) ≤ 2 * 160 + 0 ∧ 2 * (160 : ℚ) + 0 ≤ (11 / 10) * (2 * 160))
    ∧ (∀ b5 : ℚ, RetryReaches 5 5 b5 → 160 ≤ b5
        ∧ ∀ j6 : ℚ, handle_retry_exception b5 j6 = .exhausted)
    ∧ (∀ (n : ℕ) (bn : ℚ), n ≤ 4 → RetryReaches 5 n bn → bn < 150) :=
  retry_policy_amended 160 0 (by norm_num) (by norm_num [min_def])

/-- Claim C4 (counterexample): starting from three threads, the first
two terminal exhaustions degrade the pool to two and then one thread,
and the third terminal exhaustion already fails the whole run: the
fourth attempt, although it would succeed, is never reached — refuting
the claim that only a fourth consecutive terminal exhaustion fails the
run. -/
theorem driver_fourth_exhaustion_cex :
    run_nader_super_loop 3 [false, false, false, true]
      = some ([.attempt 3, .cooldown 300, .attempt 2, .cooldown 300, .attempt 1], false) := by
  decide

/-- Claim C4 (amended): for the driver loop started with three
threads, a terminal exhaustion at three threads degrades the pool to
two after a 300 second cooldown, a terminal exhaustion at two threads
degrades it to one after a 300 second cooldown, a terminal exhaustion
at one thread fails the whole run, and hence the third (not the
fourth) consecutive terminal exhaustion fails the run, whatever
outcomes would follow. -/
theorem driver_degradation_amended (rest : List Bool) :
    run_nader_super_loop 3 (false :: rest)
      = (run_nader_super_loop 2 rest).map
          (fun p => (.attempt 3 :: .cooldown 300 :: p.1, p.2))
    ∧ run_nader_super_loop 2 (false :: rest)
      = (run_nader_super_loop 1 rest).map
          (fun p => (.attempt 2 :: .cooldown 300 :: p.1, p.2))
    ∧ run_nader_super_loop 1 (false :: rest) = some ([.attempt 1], false)
    ∧ run_nader_super_loop 3 (false :: false :: false :: rest)
      = some ([.attempt 3, .cooldown 300, .attempt 2, .cooldown 300, .attempt 1], false) := by
  refine ⟨?_, ?_, ?_, ?_⟩ <;> simp [run_nader_super_loop]

/-- Claim C5 (counterexample): a default-variant frame carrying every
mapped column except status makes prep_dataframe raise KeyError at the
projection, and a scroll frame carrying every mapped column except
l1Fee makes prep_dataframe_scroll raise KeyError — normalization does
raise on an absent required projected column, refuting the claim. -/
theorem prep_missing_column_raises_cex :
    prep_dataframe_columns cols_without_status = .error "KeyError"
    ∧ prep_dataframe_scroll_columns cols_without_l1Fee = .error "KeyError"
    ∧ "status" ∉ cols_without_status
    ∧ "l1Fee" ∉ cols_without_l1Fee := by
  refine ⟨by rfl, by rfl, by decide, by decide⟩

/-- Claim C5 (amended): only the three L1 fee columns are defaulted
when absent, and only in the default variant: a default-variant frame
carrying at least every mapped non-L1 column normalizes without
raising (the L1 columns are filled with zero), while a frame missing
the projected column status raises KeyError, and a scroll frame
missing l1Fee raises KeyError (the scroll variant defaults no column
at all). -/
theorem prep_columns_amended (cols : List String)
    (h : ∀ c ∈ default_column_mapping_keys,
      c ∉ default_required_l1_columns → c ∈ cols) :
    prep_dataframe_columns cols = .ok default_column_mapping_keys
    ∧ prep_dataframe_columns cols_without_status = .error "KeyError"
    ∧ prep_dataframe_scroll_columns cols_without_l1Fee = .error "KeyError" := by
  refine ⟨?_, by rfl, by rfl⟩
  unfold prep_dataframe_columns select_columns
  rw [if_pos]
  rw [List.all_eq_true]
  intro c hc
  rw [decide_eq_true_eq]
  by_cases hl1 : c ∈ default_required_l1_columns
  · exact ensure_columns_mem_of_req _ _ _ hl1
  · exact ensure_columns_mem_of_mem _ _ _ (h c hc hl1)

/-- Claim C5 (witness): the amended column theorem applied at a frame
that carries exactly the mapped columns. -/
theorem prep_columns_amended_witness :
    prep_dataframe_columns default_column_mapping_keys = .ok default_column_mapping_keys
    ∧ prep_dataframe_columns cols_without_status = .error "KeyError"
    ∧ prep_dataframe_scroll_columns cols_without_l1Fee = .error "KeyError" :=
  prep_columns_amended default_column_mapping_keys (by decide)

/-- Claim C6: on the default chain variant, with both gas fields
numeric and the three L1 columns filled with the integer 0 (the value
the source assigns when the columns are absent), the fee reduces to
gas_price * gas_used / 1e18; and at the concrete row gas_price = 2e9,
gas_used = 21000, l1_gas_used the hex string 0x640 (1600),
l1_gas_price = 1e9, l1_fee_scalar the string 1.5, the computed fee is
0.0000444 = 444 / 10^7. -/
theorem tx_fee_default_formula (gp gu : ℚ) :
    tx_fee_default (.num gp) (.num gu) (.num 0) (.num 0) (.num 0)
      = some (gp * gu / 10 ^ 18)
    ∧ tx_fee_default (.num 2000000000) (.num 21000) (.str "0x640")
        (.num 1000000000) (.str "1.5") = some (444 / 10 ^ 7) := by
  constructor
  · show some ((gp * gu + _ * _ * _) / 10 ^ 18) = _
    norm_num [tx_fee_default, pd_to_numeric, safe_float_conversion, hex_to_int, fillna_str,
      Option.getD, Option.map]
  · have h : tx_fee_default (.num 2000000000) (.num 21000) (.str "0x640")
        (.num 1000000000) (.str "1.5") =
        some (((2000000000 : ℚ) * 21000 + (((1600 : ℤ) : ℚ)) * 1000000000 *
          ((1 : ℚ) + (5 : ℚ) / (10 : ℚ) ^ 1)) / 10 ^ 18) := by rfl
    rw [h]; norm_num

/-- Claim C7: the archive write returns success exactly when the
post-write existence check against the same object key passes, and
every successfully returned storage state does contain that key; when
the check fails the call raises instead of returning. -/
theorem save_data_verified (s3 : S3State) (writeOk : Bool) (chain : String)
    (block_start block_end : ℕ) :
    ((save_data_for_range s3 writeOk chain block_start block_end).toOption.isSome
      = s3_file_exists (to_parquet_write s3 writeOk (archive_file_key chain block_start block_end))
          (archive_file_key chain block_start block_end))
    ∧ ((save_data_for_range s3 writeOk chain block_start block_end).toOption.all
        (fun s3out => s3_file_exists s3out (archive_file_key chain block_start block_end))
      = true) := by
  unfold save_data_for_range
  by_cases hex : s3_file_exists
      (to_parquet_write s3 writeOk (archive_file_key chain block_start block_end))
      (archive_file_key chain block_start block_end)
  · simp [hex, Except.toOption, Option.all]
  · simp only [Bool.not_eq_true] at hex
    simp [hex, Except.toOption, Option.all]

/-- Claim C8: every attempt of the range processor runs its stages
strictly in the order fetch, archive, normalize, upsert (its trace is
an initial segment of that order), and an attempt whose upsert step
fails has already written and verified the raw archive object for the
range: the attempt raises, its trace ends at normalize, the archive
key exists in the resulting object storage, and no upsert call reached
the store. -/
theorem stage_order_and_archive_before_upsert (env : AttemptEnv) (s3 : S3State)
    (db : DbState) (chain table : String) (block_start block_end : ℕ)
    (hf : env.fetchRaises = false) (hr : env.fetchedRows.isEmpty = false)
    (hw : env.writeOk = true) (hn : env.normalizeRaises = false)
    (hu : env.upsertRaises = true) :
    (∀ (env' : AttemptEnv) (s3' : S3State) (db' : DbState),
      (run_attempt env' s3' db' chain table block_start block_end).1 ∈ stage_order_segments)
    ∧ (run_attempt env s3 db chain table block_start block_end).1
        = [.fetchStage, .archiveStage, .normalizeStage]
    ∧ (run_attempt env s3 db chain table block_start block_end).2.1 = .raised
    ∧ s3_file_exists (run_attempt env s3 db chain table block_start block_end).2.2.1
        (archive_file_key chain block_start block_end) = true
    ∧ (run_attempt env s3 db chain table block_start block_end).2.2.2 = db := by
  constructor
  · intro env' s3' db'
    unfold run_attempt
    by_cases h1 : env'.fetchRaises <;> simp only [h1, if_true, if_false, Bool.false_eq_true]
    · simp [stage_order_segments]
    · cases fetch_data_result env'.fetchedRows with
      | none => simp [stage_order_segments]
      | some rows =>
        cases save_data_for_range s3' env'.writeOk chain block_start block_end with
        | error e => simp [stage_order_segments]
        | ok s3ok =>
          by_cases h2 : env'.normalizeRaises <;>
            by_cases h3 : env'.upsertRaises <;>
              simp [h2, h3, stage_order_segments]
  · have hsave : save_data_for_range s3 env.writeOk chain block_start block_end
        = .ok (to_parquet_write s3 true (archive_file_key chain block_start block_end)) := by
      rw [hw]
      unfold save_data_for_range
      rw [if_pos]
      unfold s3_file_exists to_parquet_write
      simp
    have hfetch : fetch_data_result env.fetchedRows = some env.fetchedRows := by
      unfold fetch_data_result
      rw [hr]
      simp
    unfold run_attempt
    rw [hf, hfetch, hsave, hn, hu]
    refine ⟨rfl, rfl, ?_, rfl⟩
    unfold s3_file_exists to_parquet_write
    simp

/-- Claim C8 (witness): the stage-order theorem applied at a concrete
attempt whose upsert step fails. -/
theorem stage_order_witness :
    (∀ (env' : AttemptEnv) (s3' : S3State) (db' : DbState),
      (run_attempt env' s3' db' "pgn" "pgn_tx" 0 249).1 ∈ stage_order_segments)
    ∧ (run_attempt envUpsertFails ⟨[]⟩ ⟨[]⟩ "pgn" "pgn_tx" 0 249).1
        = [.fetchStage, .archiveStage, .normalizeStage]
    ∧ (run_attempt envUpsertFails ⟨[]⟩ ⟨[]⟩ "pgn" "pgn_tx" 0 249).2.1 = .raised
    ∧ s3_file_exists (run_attempt envUpsertFails ⟨[]⟩ ⟨[]⟩ "pgn" "pgn_tx" 0 249).2.2.1
        (archive_file_key "pgn" 0 249) = true
    ∧ (run_attempt envUpsertFails ⟨[]⟩ ⟨[]⟩ "pgn" "pgn_tx" 0 249).2.2.2 = (⟨[]⟩ : DbState) :=
  stage_order_and_archive_before_upsert envUpsertFails ⟨[]⟩ ⟨[]⟩ "pgn" "pgn_tx" 0 249
    rfl rfl rfl rfl rfl

/-- Claim C9: in all three normalizer variants the derived empty_input
flag is true exactly when the raw input payload is the string 0x or
the empty string; in particular 0x and the empty string map to true
and 0xabc123 maps to false. -/
theorem empty_input_spec (x : String) :
    (empty_input_default x = true ↔ (x = "0x" ∨ x = ""))
    ∧ empty_input_scroll x = empty_input_default x
    ∧ empty_input_linea x = empty_input_default x
    ∧ empty_input_default "0x" = true
    ∧ empty_input_default "" = true
    ∧ empty_input_default "0xabc123" = false := by
  refine ⟨?_, rfl, rfl, by decide, by decide, by decide⟩
  unfold empty_input_default
  by_cases h : x = "0x" ∨ x = "" <;> simp [h]

/-- Claim C10: an attempt of the range processor whose fetch finds
zero transactions returns successfully through the early empty-frame
return: the only completed stage is the fetch, no archive object is
written and no upsert reaches the store, and both the object storage
and the destination store are returned unchanged. -/
theorem empty_range_no_effect (env : AttemptEnv) (s3 : S3State) (db : DbState)
    (chain table : String) (block_start block_end : ℕ)
    (hf : env.fetchRaises = false) (he : env.fetchedRows = []) :
    run_attempt env s3 db chain table block_start block_end
      = ([.fetchStage], .skippedEmpty, s3, db)
    ∧ StageEvent.archiveStage ∉ (run_attempt env s3 db chain table block_start block_end).1
    ∧ StageEvent.upsertStage ∉ (run_attempt env s3 db chain table block_start block_end).1 := by
  have hres : run_attempt env s3 db chain table block_start block_end
      = ([.fetchStage], .skippedEmpty, s3, db) := by
    unfold run_attempt
    rw [hf, he]
    rfl
  refine ⟨hres, ?_, ?_⟩ <;> rw [hres] <;> simp

/-- Claim C10 (witness): the frame theorem applied at a concrete
attempt with an empty fetch over a nonempty storage and store. -/
theorem empty_range_no_effect_witness :
    run_attempt envEmptyFetch ⟨["old"]⟩ ⟨[("t", [rowA])]⟩ "pgn" "pgn_tx" 250 499
      = ([.fetchStage], .skippedEmpty, ⟨["old"]⟩, ⟨[("t", [rowA])]⟩)
    ∧ StageEvent.archiveStage
        ∉ (run_attempt envEmptyFetch ⟨["old"]⟩ ⟨[("t", [rowA])]⟩ "pgn" "pgn_tx" 250 499).1
    ∧ StageEvent.upsertStage
        ∉ (run_attempt envEmptyFetch ⟨["old"]⟩ ⟨[("t", [rowA])]⟩ "pgn" "pgn_tx" 250 499).1 :=
  empty_range_no_effect envEmptyFetch ⟨["old"]⟩ ⟨[("t", [rowA])]⟩ "pgn" "pgn_tx" 250 499 rfl rfl
